import Mathlib

/-!
Verification development for the Centec Mars PHY driver (`mars.c`).

The repository holds two revisions of the same driver file.  Most functions
are embedded from the later revision; the earlier revision's `mars_set_wol`
(the only function of the earlier revision a claim depends on) is embedded
in the `Rev1` namespace.

The management bus is modelled explicitly: a device state `S` carries the
chip's registers together with a fault oracle deciding whether each
successive bus transaction succeeds.  Every C function returning `int`
(negative = error) becomes a Lean function `S → Int × S`; register values
are 16-bit, so reads deliver `value % 65536` and writes store `value % 65536`.
C's `ret = f(...); if (ret < 0) return ret;` is rendered as
`let r := f ...; if r.1 < 0 then r else ...`.
-/

set_option maxHeartbeats 1000000

/-- Device state: chip registers plus the host-visible `phy_device` fields and
the two process-wide variables `g_port_type` / `g_port_status`.  `oracle n`
tells whether the `n`-th bus transaction succeeds; `ctr` counts transactions.
`latch` is register 0x1e (the address latch of the indirect protocol), `ext`
the extended register file reached through 0x1e/0x1f, and `regs sp r` the
directly addressed register `r` of space `sp` (0 = PHY space, 1 = SerDes). -/
structure S where
  oracle : Nat → Bool
  ctr : Nat
  latch : Nat
  ext : Nat → Nat
  regs : Nat → Nat → Nat
  portType : Nat
  portStatus : Nat
  autoneg : Nat
  speed : Nat
  duplex : Nat
  pause : Nat
  asymPause : Nat
  link : Nat
  advertising : Nat
  supported : Nat
  devAddr : Nat → Nat

/-- `struct mars_wol_cfg_t`. -/
structure MarsWolCfg where
  enable : Nat
  type : Nat
  width : Nat

/-- `struct ethtool_wolinfo` (the two fields the driver touches). -/
structure WolInfo where
  supported : Nat
  wolopts : Nat

/-- The register space currently selected by the page register 0xa000:
value 0x0 selects the PHY (primary) space, 0x2 the SerDes (secondary)
space; bit 1 encodes the selection. -/
def curSpace (s : S) : Nat := if s.ext 0xa000 &&& 2 ≠ 0 then 1 else 0

/-- The observable "selected space" bit of the page register. -/
def spaceSel (s : S) : Nat := s.ext 0xa000 &&& 2

/-- One bus transaction: consult the fault oracle and advance the counter. -/
def busStep (s : S) : Bool × S := (s.oracle s.ctr, { s with ctr := s.ctr + 1 })

/-- C conversion of an `int` to the `u16` actually put on the bus. -/
def intToU16 (i : Int) : Nat := (i % 65536).toNat

/-- 32-bit C complement `~m`, as the mask it contributes under `&`. -/
def cNot (m : Nat) : Nat := 0xffffffff ^^^ m

/-- `phy_read`: one bus transaction; register 0x1f is the indirect data
register (reads `ext` at the latched address), anything else reads the
currently selected space. Fails with a negative code when the bus fails. -/
def phy_read (s : S) (regnum : Nat) : Int × S :=
  let b := busStep s
  if b.1 then
    if regnum = 0x1f then (((b.2.ext b.2.latch % 65536 : Nat) : Int), b.2)
    else (((b.2.regs (curSpace b.2) regnum % 65536 : Nat) : Int), b.2)
  else (-1, b.2)

/-- `phy_write`: one bus transaction; 0x1e writes the latch, 0x1f writes the
extended register at the latched address, anything else writes the currently
selected space.  A failed write leaves the registers unchanged. -/
def phy_write (s : S) (regnum val : Nat) : Int × S :=
  let b := busStep s
  if b.1 then
    if regnum = 0x1e then (0, { b.2 with latch := val % 65536 })
    else if regnum = 0x1f then
      (0, { b.2 with ext := fun r => if r = b.2.latch then val % 65536 else b.2.ext r })
    else
      (0, { b.2 with regs := fun sp r =>
              if sp = curSpace b.2 ∧ r = regnum then val % 65536 else b.2.regs sp r })
  else (-1, b.2)

/-- `mars_ext_read`. -/
def mars_ext_read (s : S) (regnum : Nat) : Int × S :=
  let w := phy_write s 0x1e regnum
  if w.1 < 0 then w
  else phy_read w.2 0x1f

/-- `mars_ext_write`. -/
def mars_ext_write (s : S) (regnum val : Nat) : Int × S :=
  let w := phy_write s 0x1e regnum
  if w.1 < 0 then w
  else phy_write w.2 0x1f val

/-- `mars_select_reg_space`: writes 0x0 to the page register for the PHY
space (`space == CTC_PHY_REG_SPACE`, i.e. 0) and 0x2 otherwise. -/
def mars_select_reg_space (s : S) (space : Nat) : Int × S :=
  if space = 0 then mars_ext_write s 0xa000 0x0
  else mars_ext_write s 0xa000 0x2

/-- `mars_page_read` (later revision): save the page register, select the
requested space, read, and restore `oldpage & 0x2`. -/
def mars_page_read (s : S) (page regnum : Nat) : Int × S :=
  let o := mars_ext_read s 0xa000
  if o.1 < 0 then o
  else
    let t := mars_select_reg_space o.2 page
    if t.1 < 0 then t
    else
      let v := phy_read t.2 regnum
      let b := mars_select_reg_space v.2 (o.1.toNat &&& 0x2)
      if b.1 < 0 then b else (v.1, b.2)

/-- `mars_page_write` (later revision). -/
def mars_page_write (s : S) (page regnum value : Nat) : Int × S :=
  let o := mars_ext_read s 0xa000
  if o.1 < 0 then o
  else
    let t := mars_select_reg_space o.2 page
    if t.1 < 0 then t
    else
      let v := phy_write t.2 regnum value
      let b := mars_select_reg_space v.2 (o.1.toNat &&& 0x2)
      if b.1 < 0 then b else (v.1, b.2)

/-- `mars_page_ext_write` (later revision). -/
def mars_page_ext_write (s : S) (page regnum value : Nat) : Int × S :=
  let o := mars_ext_read s 0xa000
  if o.1 < 0 then o
  else
    let t := mars_select_reg_space o.2 page
    if t.1 < 0 then t
    else
      let v := mars_ext_write t.2 regnum value
      let b := mars_select_reg_space v.2 (o.1.toNat &&& 0x2)
      if b.1 < 0 then b else (v.1, b.2)

/-- Modelled from the Linux kernel helper `ethtool_adv_to_mii_adv_t`
(external collaborator, `include/linux/mii.h`): translate the legacy
ethtool advertisement bits to MII_ADVERTISE bits. -/
def ethtool_adv_to_mii_adv_t (ethadv : Nat) : Nat :=
  (if ethadv &&& 0x1 ≠ 0 then 0x20 else 0) |||
  (if ethadv &&& 0x2 ≠ 0 then 0x40 else 0) |||
  (if ethadv &&& 0x4 ≠ 0 then 0x80 else 0) |||
  (if ethadv &&& 0x8 ≠ 0 then 0x100 else 0) |||
  (if ethadv &&& 0x2000 ≠ 0 then 0x400 else 0) |||
  (if ethadv &&& 0x4000 ≠ 0 then 0x800 else 0)

/-- Modelled from the Linux kernel helper `ethtool_adv_to_mii_ctrl1000_t`
(external collaborator, `include/linux/mii.h`). -/
def ethtool_adv_to_mii_ctrl1000_t (ethadv : Nat) : Nat :=
  (if ethadv &&& 0x10 ≠ 0 then 0x100 else 0) |||
  (if ethadv &&& 0x20 ≠ 0 then 0x200 else 0)

/-- `mars_config_advert` (later revision, pre-5.0 legacy-u32 branch of the
version conditionals): returns a negative error, or 1 when some
advertisement bit changed, or 0 otherwise.  MII_ADVERTISE is register 4,
MII_BMSR register 1 (bit 0x100 = BMSR_ESTATEN), MII_CTRL1000 register 9;
0xfe0 = ADVERTISE_ALL|ADVERTISE_100BASE4|ADVERTISE_PAUSE_CAP|PAUSE_ASYM,
0x300 = ADVERTISE_1000FULL|ADVERTISE_1000HALF, and 0x30 =
SUPPORTED_1000baseT_Half|SUPPORTED_1000baseT_Full. -/
def mars_config_advert (s : S) : Int × S :=
  let s := { s with advertising := s.advertising &&& s.supported }
  let advertise := s.advertising
  let a := mars_page_read s 0 4
  if a.1 < 0 then a
  else
    let oldadv := a.1.toNat
    let advN := oldadv &&& cNot 0xfe0 ||| ethtool_adv_to_mii_adv_t advertise
    let rest := fun (s : S) (changed : Nat) =>
      let b := mars_page_read s 0 1
      if b.1 < 0 then b
      else if b.1.toNat &&& 0x100 = 0 then ((changed : Int), b.2)
      else
        let g := mars_page_read b.2 0 9
        if g.1 < 0 then g
        else
          let oldg := g.1.toNat
          let g2 := oldg &&& cNot 0x300
          let g3 := if g.2.supported &&& 0x30 ≠ 0 then
                      g2 ||| ethtool_adv_to_mii_ctrl1000_t advertise
                    else g2
          let changed2 : Nat := if g3 ≠ oldg then 1 else changed
          let w := mars_page_write g.2 0 9 g3
          if w.1 < 0 then w else ((changed2 : Int), w.2)
    if advN ≠ oldadv then
      let w := mars_page_write a.2 0 4 advN
      if w.1 < 0 then w else rest w.2 1
    else rest a.2 0

/-- `mars_setup_forced` (later revision).  MII_BMCR is register 0; in the
copper block 0x4c00 = BMCR_LOOPBACK|BMCR_ISOLATE|BMCR_PDOWN is kept, speed
1000/100 set 0x40/0x2000, full duplex sets 0x100; in the fiber block
BMCR_ANENABLE (0x1000) is cleared. -/
def mars_setup_forced (s : S) : Int × S :=
  let part1 : Int × S :=
    if s.portType = 0 ∨ s.portType = 2 then
      let a := mars_page_read s 0 0
      if a.1 < 0 then a
      else
        let c0 : Nat := a.1.toNat &&& 0x4c00
        let s : S := { a.2 with pause := 0, asymPause := 0 }
        let c1 : Nat := if s.speed = 1000 then c0 ||| 0x40
                        else if s.speed = 100 then c0 ||| 0x2000 else c0
        let c2 : Nat := if s.duplex = 1 then c1 ||| 0x100 else c1
        mars_page_write s 0 0 c2
    else (0, s)
  if part1.1 < 0 then part1
  else if part1.2.portType = 1 ∨ part1.2.portType = 2 then
    let a := mars_page_read part1.2 1 0
    if a.1 < 0 then a
    else
      let c := a.1.toNat &&& cNot 0x1000
      let w := mars_page_write a.2 1 0 c
      if w.1 < 0 then w else (0, w.2)
  else (0, part1.2)

/-- `mars_restart_aneg` (later revision): copper sets
BMCR_ANENABLE|BMCR_ANRESTART (0x1200) and clears BMCR_ISOLATE (0x400);
fiber sets BMCR_ANENABLE. -/
def mars_restart_aneg (s : S) : Int × S :=
  let part1 : Int × S :=
    if s.portType = 0 ∨ s.portType = 2 then
      let a := mars_page_read s 0 0
      if a.1 < 0 then a
      else
        let c := (a.1.toNat ||| 0x1200) &&& cNot 0x400
        mars_page_write a.2 0 0 c
    else (0, s)
  if part1.1 < 0 then part1
  else if part1.2.portType = 1 ∨ part1.2.portType = 2 then
    let a := mars_page_read part1.2 1 0
    if a.1 < 0 then a
    else
      let c := a.1.toNat ||| 0x1000
      let w := mars_page_write a.2 1 0 c
      if w.1 < 0 then w else (0, w.2)
  else (0, part1.2)

/-- The UTP/COMBO block of `mars1s_config_aneg` (later revision); note
that it keeps going into the advertisement logic after a forced setup. -/
def mars1s_config_aneg_utp (s : S) : Int × S :=
  if s.portType = 0 ∨ s.portType = 2 then
    let f := if s.autoneg ≠ 1 then mars_setup_forced s else ((0 : Int), s)
    if f.1 < 0 then f
    else
      let a := mars_config_advert f.2
      if a.1 < 0 then a
      else
        let fin := fun (changed : Int) (s : S) =>
          if changed > 0 then
            let r := mars_restart_aneg s
            if r.1 < 0 then r else ((0 : Int), r.2)
          else ((0 : Int), s)
        if a.1 = 0 then
          let ctl := mars_page_read a.2 0 0
          if ctl.1 < 0 then ctl
          else if ctl.1.toNat &&& 0x1000 = 0 ∨ ctl.1.toNat &&& 0x400 ≠ 0 then fin 1 ctl.2
          else fin 0 ctl.2
        else fin a.1 a.2
  else ((0 : Int), s)

/-- The FIBER/COMBO block of `mars1s_config_aneg` (later revision),
including the final `return 0`. -/
def mars1s_config_aneg_fiber (phase1 : Int × S) : Int × S :=
  if phase1.1 < 0 then phase1
  else if phase1.2.portType = 1 ∨ phase1.2.portType = 2 then
    if phase1.2.autoneg ≠ 1 then mars_setup_forced phase1.2
    else
      let r := mars_restart_aneg phase1.2
      if r.1 < 0 then r else ((0 : Int), r.2)
  else ((0 : Int), phase1.2)

/-- `mars1s_config_aneg` (later revision).  `phydev->autoneg` is compared
against AUTONEG_ENABLE = 1; BMCR bit 0x1000 is ANENABLE, 0x400 ISOLATE.
The UTP/COMBO block runs first, then the FIBER/COMBO block. -/
def mars1s_config_aneg (s : S) : Int × S :=
  mars1s_config_aneg_fiber (mars1s_config_aneg_utp s)

/-- The FIBER/COMBO block of `mars_update_link` (later revision) together
with the function's final `return 0`; reached when the UTP/COMBO block
falls through without an early return. -/
def mars_update_link_fiber (s : S) : Int × S :=
  if s.portType = 1 ∨ s.portType = 2 then
    let f1 := mars_page_read s 1 1
    if f1.1 < 0 then f1
    else
      let f2 := mars_page_read f1.2 1 1
      if f2.1 < 0 then f2
      else if f2.1.toNat &&& 4 = 0 then (0, { f2.2 with link := 0 })
      else
        let t : S := { f2.2 with link := 1 }
        let r := mars_select_reg_space t 1
        if r.1 < 0 then r
        else (0, { r.2 with portStatus := 1 })
  else (0, s)

/-- `mars_update_link` (later revision).  MII_BMSR is register 1, bit
0x4 = BMSR_LSTATUS; the first of the two reads is the latched-state
clearing read whose result is discarded unless it fails.  A copper
link-up selects the PHY space, records `g_port_status = UTP` and returns
0 immediately; otherwise control reaches the fiber block. -/
def mars_update_link (s : S) : Int × S :=
  if s.portType = 0 ∨ s.portType = 2 then
    let c1 := mars_page_read s 0 1
    if c1.1 < 0 then c1
    else
      let c2 := mars_page_read c1.2 0 1
      if c2.1 < 0 then c2
      else if c2.1.toNat &&& 4 = 0 then mars_update_link_fiber { c2.2 with link := 0 }
      else
        let t : S := { c2.2 with link := 1 }
        let r := mars_select_reg_space t 0
        if r.1 < 0 then r
        else (0, { r.2 with portStatus := 0 })
  else mars_update_link_fiber s

/-- `mars_read_status` (later revision).  CTC_MARS_SSREG is register 0x11
(bit15 = 1000M, bit14 = 100M, bit13 = full duplex), MII_LPA register 5
(0x400 = LPA_PAUSE_CAP, 0x800 = LPA_PAUSE_ASYM); SPEED_10/100/1000 are
10/100/1000 and DUPLEX_HALF/FULL are 0/1. -/
def mars_read_status (s : S) : Int × S :=
  let u := mars_update_link s
  if u.1 < 0 then u
  else
    let page := if u.2.portStatus ≠ 0 then 1 else 0
    let s : S := { u.2 with speed := 10, duplex := 0, pause := 0, asymPause := 0 }
    let a := mars_page_read s page 0x11
    if a.1 < 0 then a
    else
      let l := mars_page_read a.2 page 5
      if l.1 < 0 then l
      else
        let v := a.1.toNat
        let t :=
          if v &&& 0x8000 ≠ 0 then { l.2 with speed := 1000, duplex := 1 }
          else if v &&& 0x4000 ≠ 0 then
            if v &&& 0x2000 ≠ 0 then { l.2 with speed := 100, duplex := 1 }
            else { l.2 with speed := 100 }
          else if v &&& 0x2000 ≠ 0 then { l.2 with duplex := 1 }
          else l.2
        let t2 :=
          if t.duplex = 1 then
            { t with pause := if l.1.toNat &&& 0x400 ≠ 0 then 1 else 0,
                     asymPause := if l.1.toNat &&& 0x800 ≠ 0 then 1 else 0 }
          else t
        (0, t2)

/-- `mars_wol_en_cfg` (identical in both revisions).  The WOL config
register is 0xa00a; bit 0x1 = CTC_MARS_WOL_TYPE, 0x2/0x4 the pulse width
bits, 0x8 = CTC_MARS_WOL_EN, 0x40 = CTC_MARS_WOL_INTR_SEL.  Types
LEVEL/PULSE are 0/1, widths 84/168/336/672 ms are 0/1/2/3. -/
def mars_wol_en_cfg (s : S) (cfg : MarsWolCfg) : Int × S :=
  let a := mars_ext_read s 0xa00a
  if a.1 < 0 then a
  else
    let v0 := a.1.toNat
    let v :=
      if cfg.enable ≠ 0 then
        let v1 := v0 ||| 0x8
        if cfg.type = 0 then v1 &&& cNot 0x1 &&& cNot 0x40
        else if cfg.type = 1 then
          let v2 := v1 ||| 0x1 ||| 0x40
          if cfg.width = 0 then v2 &&& cNot 0x2 &&& cNot 0x4
          else if cfg.width = 1 then (v2 ||| 0x2) &&& cNot 0x4
          else if cfg.width = 2 then v2 &&& cNot 0x2 ||| 0x4
          else if cfg.width = 3 then v2 ||| 0x2 ||| 0x4
          else v2
        else v1
      else v0 &&& cNot 0x8 &&& cNot 0x40
    let w := mars_ext_write a.2 0xa00a v
    if w.1 < 0 then w else (0, w.2)

/-- `mars_get_wol` (identical in both revisions): WAKE_MAGIC is 0x20 and
CTC_MARS_WOL_EN is bit 0x8 of register 0xa00a. -/
def mars_get_wol (s : S) (wol : WolInfo) : WolInfo × S :=
  let wol := { wol with supported := 0x20, wolopts := 0 }
  let a := mars_ext_read s 0xa00a
  if a.1 < 0 then (wol, a.2)
  else if a.1.toNat &&& 0x8 ≠ 0 then ({ wol with wolopts := wol.wolopts ||| 0x20 }, a.2)
  else (wol, a.2)

/-- `mars_set_wol` (later revision).  `wolopts` is the requested
`wol->wolopts`; WAKE_MAGIC = 0x20.  CTC_MARS_INTR_REG is register 0x12 and
CTC_MARS_WOL_INTR its bit 0x40; the magic-packet MAC address registers are
0xa007/0xa008/0xa009 (`dev_addr` bytes packed big-endian two per register);
enabling uses the fixed PULSE/672ms policy (type 1, width 3), disabling the
MAX sentinels (type 2, width 4).  The read of the interrupt register is not
error-checked in the C source, hence the raw `intToU16` conversion. -/
def mars_set_wol (s : S) (wolopts : Nat) : Int × S :=
  if wolopts &&& 0x20 ≠ 0 then
    let a := mars_page_read s 0 0x12
    let v := intToU16 a.1 ||| 0x40
    let w := mars_page_write a.2 0 0x12 v
    if w.1 < 0 then w
    else
      let e := mars_wol_en_cfg w.2 ⟨1, 1, 3⟩
      if e.1 < 0 then e
      else
        let m2 := mars_ext_write e.2 0xa007 ((e.2.devAddr 0 <<< 8) ||| e.2.devAddr 1)
        if m2.1 < 0 then m2
        else
          let m1 := mars_ext_write m2.2 0xa008 ((m2.2.devAddr 2 <<< 8) ||| m2.2.devAddr 3)
          if m1.1 < 0 then m1
          else
            let m0 := mars_ext_write m1.2 0xa009 ((m1.2.devAddr 4 <<< 8) ||| m1.2.devAddr 5)
            if m0.1 < 0 then m0 else (0, m0.2)
  else
    let e := mars_wol_en_cfg s ⟨0, 2, 4⟩
    if e.1 < 0 then e else (0, e.2)

/-- `mars_get_port_type` (later revision): reads CTC_MARS_CHIP_CFG_REG
(0xa001), masks the low 3 bits and classifies into
UTP = 0 / FIBER = 1 / COMBO = 2, pre-seeding `g_port_status` for the
non-COMBO cases. -/
def mars_get_port_type (s : S) : Int × S :=
  let a := mars_ext_read s 0xa001
  if a.1 < 0 then a
  else
    let v := a.1.toNat &&& 0x7
    if v = 0 ∨ v = 3 then (0, { a.2 with portType := 0, portStatus := 0 })
    else if v = 1 ∨ v = 4 ∨ v = 5 then (0, { a.2 with portType := 1, portStatus := 1 })
    else (0, { a.2 with portType := 2 })

namespace Rev1

/-- `mars_set_wol` of the earlier revision: saves the page register,
switches to the PHY space, programs the WOL machinery through direct
`phy_read`/`phy_write` accesses to the interrupt register and
`mars_ext_write` accesses to the magic-packet registers, and finally
restores the space selection from `oldpage & 0x1`. -/
def mars_set_wol (s : S) (wolopts : Nat) : Int × S :=
  let o := mars_ext_read s 0xa000
  if o.1 < 0 then o
  else
    let t := mars_select_reg_space o.2 0
    if t.1 < 0 then t
    else
      let afterCfg : Int × S :=
        if wolopts &&& 0x20 ≠ 0 then
          let a := phy_read t.2 0x12
          let v := intToU16 a.1 ||| 0x40
          let w := phy_write a.2 0x12 v
          if w.1 < 0 then w
          else
            let e := mars_wol_en_cfg w.2 ⟨1, 1, 3⟩
            if e.1 < 0 then e
            else
              let m2 := mars_ext_write e.2 0xa007 ((e.2.devAddr 0 <<< 8) ||| e.2.devAddr 1)
              if m2.1 < 0 then m2
              else
                let m1 := mars_ext_write m2.2 0xa008 ((m2.2.devAddr 2 <<< 8) ||| m2.2.devAddr 3)
                if m1.1 < 0 then m1
                else
                  let m0 := mars_ext_write m1.2 0xa009 ((m1.2.devAddr 4 <<< 8) ||| m1.2.devAddr 5)
                  if m0.1 < 0 then m0 else (0, m0.2)
        else
          let e := mars_wol_en_cfg t.2 ⟨0, 2, 4⟩
          if e.1 < 0 then e else (0, e.2)
      if afterCfg.1 < 0 then afterCfg
      else
        let b := mars_select_reg_space afterCfg.2 (o.1.toNat &&& 0x1)
        if b.1 < 0 then b else (0, b.2)

end Rev1

/-- The amended C2 description as a program, built from the same
sub-operations: for COPPER/COMBO ports, when autonegotiation is not
enabled first run the forced setup (aborting on error); then in all cases
reconfigure the advertisement, and restart autonegotiation exactly when
the advertisement changed or the chip reports autonegotiation disabled or
the isolate bit set; afterwards, for FIBER/COMBO ports, when
autonegotiation is not enabled run the forced setup and return its result
immediately, otherwise restart autonegotiation.  This definition is the
UTP/COMBO part of that description. -/
def mars1s_config_aneg_spec_utp (s : S) : Int × S :=
  if s.portType = 0 ∨ s.portType = 2 then
    let f := if s.autoneg ≠ 1 then mars_setup_forced s else ((0 : Int), s)
    if f.1 < 0 then f
    else
      let a := mars_config_advert f.2
      if a.1 < 0 then a
      else if a.1 ≠ 0 then
        let r := mars_restart_aneg a.2
        if r.1 < 0 then r else ((0 : Int), r.2)
      else
        let ctl := mars_page_read a.2 0 0
        if ctl.1 < 0 then ctl
        else if ctl.1.toNat &&& 0x1000 = 0 ∨ ctl.1.toNat &&& 0x400 ≠ 0 then
          let r := mars_restart_aneg ctl.2
          if r.1 < 0 then r else ((0 : Int), r.2)
        else ((0 : Int), ctl.2)
  else ((0 : Int), s)

/-- See `mars1s_config_aneg_spec_utp`; the FIBER/COMBO part of the
amended description is that of the code. -/
def mars1s_config_aneg_spec (s : S) : Int × S :=
  mars1s_config_aneg_fiber (mars1s_config_aneg_spec_utp s)

/-- C6's claimed behaviour of `mars_wol_en_cfg`, following the claim's
words: clear all WOL-related bits (enable 0x8, type 0x1, width 0x2/0x4,
interrupt-select 0x40) unconditionally, then re-set them according to the
new configuration. -/
def mars_wol_en_cfg_claimed (old : Nat) (cfg : MarsWolCfg) : Nat :=
  let cleared := old &&& cNot 0x4f
  if cfg.enable ≠ 0 then
    let v1 := cleared ||| 0x8
    if cfg.type = 0 then v1
    else if cfg.type = 1 then
      let v2 := v1 ||| 0x1 ||| 0x40
      if cfg.width = 0 then v2
      else if cfg.width = 1 then v2 ||| 0x2
      else if cfg.width = 2 then v2 ||| 0x4
      else if cfg.width = 3 then v2 ||| 0x2 ||| 0x4
      else v2
    else v1
  else cleared

/-- A fault-free device state with all registers and fields cleared; the
concrete scenarios below are record updates of it. -/
def base : S where
  oracle := fun _ => true
  ctr := 0
  latch := 0
  ext := fun _ => 0
  regs := fun _ _ => 0
  portType := 0
  portStatus := 0
  autoneg := 1
  speed := 10
  duplex := 0
  pause := 0
  asymPause := 0
  link := 0
  advertising := 0
  supported := 0
  devAddr := fun _ => 0

/-- C1 scenario: the SECONDARY space is selected (page register = 0x2)
when the earlier revision's `mars_set_wol` is entered. -/
def cs1 : S := { base with ext := fun r => if r = 0xa000 then 2 else 0 }

/-- C2 scenario: UTP port, autonegotiation disabled, advertisement
register holding 0x20 (ADVERTISE_10HALF) while nothing is advertised. -/
def csC2 : S :=
  { base with
      autoneg := 0,
      regs := fun sp r => if sp = 0 ∧ r = 4 then 0x20 else 0 }

/-- C3 scenario: chip configuration register = 0x1. -/
def s3 : S := { base with ext := fun r => if r = 0xa001 then 1 else 0 }

/-- C4 scenario: COMBO port with both the copper and the fiber BMSR
link-status bits set. -/
def s4 : S := { base with portType := 2, regs := fun _ r => if r = 1 then 4 else 0 }

/-- C5 scenario: chip status register with bit 15 set and bit 13 clear. -/
def s5 : S := { base with regs := fun sp r => if sp = 0 ∧ r = 0x11 then 0x8000 else 0 }

/-- C6 scenario: WOL config register holding only the TYPE bit (0x1). -/
def s6 : S := { base with ext := fun r => if r = 0xa00a then 1 else 0 }

/-- C7 scenario: page register currently 0x2 (SECONDARY selected). -/
def s7 : S := { base with ext := fun r => if r = 0xa000 then 2 else 0 }

/-- C8 scenario: attached device hardware address AA:BB:CC:DD:EE:FF. -/
def s8 : S :=
  { base with
      devAddr := fun i =>
        if i = 0 then 0xAA else if i = 1 then 0xBB else if i = 2 then 0xCC
        else if i = 3 then 0xDD else if i = 4 then 0xEE else 0xFF }

/-- The shared save/select/operate/restore shape of the three page
operations; each of them is definitionally an instance of it. -/
def pageWrap (mid : S → Int × S) (s : S) (p : Nat) : Int × S :=
  let o := mars_ext_read s 0xa000
  if o.1 < 0 then o
  else
    let t := mars_select_reg_space o.2 p
    if t.1 < 0 then t
    else
      let v := mid t.2
      let b := mars_select_reg_space v.2 (o.1.toNat &&& 0x2)
      if b.1 < 0 then b else (v.1, b.2)

@[simp] theorem natCast_int_lt_zero_iff (n : Nat) : ((n : Int) < 0) ↔ False := by
  constructor
  · intro h; omega
  · exact False.elim

@[simp] theorem natCast_mod_65536_not_neg (n : Nat) : ((n : Int) % 65536 < 0) ↔ False := by
  constructor
  · intro h; omega
  · exact False.elim

@[simp] theorem toNat_natCast_mod_65536 (n : Nat) : ((n : Int) % 65536).toNat = n % 65536 := by
  omega

@[simp] theorem natCast_mod_65536 (n : Nat) : ((n % 65536 : Nat) : Int) = (n : Int) % 65536 := by
  omega

@[simp] theorem ite_idem_else {c : Prop} [inst : Decidable c] {α : Type} (a b d : α) :
    (if c then a else (if c then b else d)) = if c then a else d := by
  by_cases h : c <;> simp [h]

theorem land_mod16 (x m : Nat) (hm : m < 65536) : x % 65536 &&& m = x &&& m := by
  apply Nat.eq_of_testBit_eq
  intro i
  have h16 : (65536 : Nat) = 2 ^ 16 := by norm_num
  rw [Nat.testBit_and, Nat.testBit_and, h16, Nat.testBit_mod_two_pow]
  by_cases hi : i < 16
  · simp [hi]
  · have hmi : m.testBit i = false := by
      apply Nat.testBit_lt_two_pow
      calc m < 65536 := hm
        _ = 2 ^ 16 := h16
        _ ≤ 2 ^ i := Nat.pow_le_pow_right (by norm_num) (by omega)
    simp [hi, hmi]

theorem land_two_cases (x : Nat) : x &&& 2 = 0 ∨ x &&& 2 = 2 := by
  have h : x &&& 2 = (x.testBit 1).toNat * 2 := by
    have h2 : (2 : Nat) = 2 ^ 1 := by norm_num
    rw [h2, Nat.and_two_pow]
  rcases hb : x.testBit 1 <;> rw [h, hb] <;> simp

theorem intToU16_ofNat (k : Nat) : intToU16 (k : Int) = k % 65536 := by
  unfold intToU16; omega

theorem mars_ext_write_nf (s : S) (reg v : Nat) (hf : ∀ n, s.oracle n = true) :
    mars_ext_write s reg v =
      (0, { s with
              ctr := s.ctr + 1 + 1,
              latch := reg % 65536,
              ext := fun r => if r = reg % 65536 then v % 65536 else s.ext r }) := by
  simp [mars_ext_write, phy_write, busStep, hf]

theorem mars_ext_read_nf (s : S) (reg : Nat) (hf : ∀ n, s.oracle n = true) :
    mars_ext_read s reg =
      (((s.ext (reg % 65536) % 65536 : Nat) : Int),
       { s with
           ctr := s.ctr + 1 + 1,
           latch := reg % 65536 }) := by
  simp [mars_ext_read, phy_write, phy_read, busStep, hf]

theorem mars_select_reg_space_nf (s : S) (sp : Nat) (hf : ∀ n, s.oracle n = true) :
    mars_select_reg_space s sp =
      (0, { s with
              ctr := s.ctr + 1 + 1,
              latch := 0xa000,
              ext := fun r => if r = 0xa000 then (if sp = 0 then 0 else 2) else s.ext r }) := by
  by_cases h : sp = 0 <;>
    simp [mars_select_reg_space, h, mars_ext_write_nf _ _ _ hf]

theorem mars_page_read_nf (s : S) (p r : Nat) (hf : ∀ n, s.oracle n = true)
    (hr : r ≠ 0x1f) :
    mars_page_read s p r =
      (((s.regs (if p = 0 then 0 else 1) r % 65536 : Nat) : Int),
       { s with
           ctr := s.ctr + 1 + 1 + 1 + 1 + 1 + 1 + 1,
           latch := 0xa000,
           ext := fun q => if q = 0xa000 then (if s.ext 0xa000 &&& 2 = 0 then 0 else 2)
                           else s.ext q }) := by
  by_cases hp : p = 0 <;>
    simp [mars_page_read, mars_ext_read_nf _ _ hf, mars_select_reg_space_nf,
      phy_read, busStep, hf, hp, hr, curSpace, land_mod16 _ 2 (by norm_num)]

theorem mars_page_write_nf (s : S) (p r v : Nat) (hf : ∀ n, s.oracle n = true)
    (hr1 : r ≠ 0x1e) (hr2 : r ≠ 0x1f) :
    mars_page_write s p r v =
      (0,
       { s with
           ctr := s.ctr + 1 + 1 + 1 + 1 + 1 + 1 + 1,
           latch := 0xa000,
           ext := fun q => if q = 0xa000 then (if s.ext 0xa000 &&& 2 = 0 then 0 else 2)
                           else s.ext q,
           regs := fun sp q => if sp = (if p = 0 then 0 else 1) ∧ q = r then v % 65536
                               else s.regs sp q }) := by
  by_cases hp : p = 0 <;>
    simp [mars_page_write, mars_ext_read_nf _ _ hf, mars_select_reg_space_nf,
      phy_write, busStep, hf, hp, hr1, hr2, curSpace, land_mod16 _ 2 (by norm_num)]

theorem mars_update_link_fiber_nf (s : S) (hf : ∀ n, s.oracle n = true) :
    (mars_update_link_fiber s).1 = 0 ∧
    ∃ c l e ps lk, (mars_update_link_fiber s).2 =
      { s with ctr := c, latch := l, ext := e, portStatus := ps, link := lk } := by
  simp [mars_update_link_fiber, mars_page_read_nf, mars_select_reg_space_nf, hf]
  split_ifs <;> exact ⟨rfl, _, _, _, _, _, rfl⟩

theorem mars_update_link_fiber_glue (s : S) (c0 l0 : Nat) (e0 : Nat → Nat) (lk0 : Nat)
    (hf : ∀ n, s.oracle n = true) :
    (mars_update_link_fiber { s with ctr := c0, latch := l0, ext := e0, link := lk0 }).1 = 0 ∧
    ∃ c l e ps lk,
      (mars_update_link_fiber { s with ctr := c0, latch := l0, ext := e0, link := lk0 }).2 =
      { s with ctr := c, latch := l, ext := e, portStatus := ps, link := lk } := by
  obtain ⟨h1, c, l, e, ps, lk, h2⟩ :=
    mars_update_link_fiber_nf { s with ctr := c0, latch := l0, ext := e0, link := lk0 } hf
  exact ⟨h1, c, l, e, ps, lk, h2⟩

theorem mars_update_link_nf (s : S) (hf : ∀ n, s.oracle n = true) :
    (mars_update_link s).1 = 0 ∧
    ∃ c l e ps lk, (mars_update_link s).2 =
      { s with ctr := c, latch := l, ext := e, portStatus := ps, link := lk } := by
  simp [mars_update_link, mars_page_read_nf, mars_select_reg_space_nf, hf]
  split_ifs
  all_goals
    first
      | exact ⟨rfl, _, _, _, _, _, rfl⟩
      | exact mars_update_link_fiber_glue _ _ _ _ _ hf

theorem phy_read_ext (s : S) (r q : Nat) : (phy_read s r).2.ext q = s.ext q := by
  simp only [phy_read, busStep]
  split_ifs <;> rfl

theorem phy_write_ext (s : S) (r v q : Nat) (hr : r ≠ 0x1f) :
    (phy_write s r v).2.ext q = s.ext q := by
  simp only [phy_write, busStep]
  split_ifs <;> simp_all

theorem mars_ext_read_ext (s : S) (r q : Nat) : (mars_ext_read s r).2.ext q = s.ext q := by
  simp only [mars_ext_read]
  split_ifs <;> simp [phy_read_ext, phy_write_ext]

theorem mars_ext_write_ext_at (s : S) (reg v q : Nat) (hq : q ≠ reg % 65536) :
    (mars_ext_write s reg v).2.ext q = s.ext q := by
  simp only [mars_ext_write, phy_write, busStep]
  split_ifs <;> simp_all

theorem mars_select_cases (s : S) (sp : Nat) :
    ((mars_select_reg_space s sp).1 = 0 ∧
     (mars_select_reg_space s sp).2.ext 0xa000 = (if sp = 0 then 0 else 2)) ∨
    ((mars_select_reg_space s sp).1 = -1 ∧
     (mars_select_reg_space s sp).2.ext 0xa000 = s.ext 0xa000) := by
  by_cases h : sp = 0 <;>
    · simp only [mars_select_reg_space, mars_ext_write, phy_write, busStep, h]
      split_ifs <;> simp_all

theorem mars_ext_read_val_cases (s : S) (r : Nat) :
    (mars_ext_read s r).1 = ((s.ext (r % 65536) % 65536 : Nat) : Int) ∨
    (mars_ext_read s r).1 = -1 := by
  simp only [mars_ext_read, phy_write, phy_read, busStep]
  split_ifs <;> simp_all


theorem mars_page_read_as_wrap (s : S) (p r : Nat) :
    mars_page_read s p r = pageWrap (fun t => phy_read t r) s p := rfl

theorem mars_page_write_as_wrap (s : S) (p r v : Nat) :
    mars_page_write s p r v = pageWrap (fun t => phy_write t r v) s p := rfl

theorem mars_page_ext_write_as_wrap (s : S) (p r v : Nat) :
    mars_page_ext_write s p r v = pageWrap (fun t => mars_ext_write t r v) s p := rfl

theorem pageWrap_space_clause (mid : S → Int × S)
    (hmid : ∀ t, (mid t).2.ext 0xa000 = t.ext 0xa000) (s : S) (p : Nat) :
    spaceSel (pageWrap mid s p).2 = spaceSel s ∨
    ((pageWrap mid s p).1 < 0 ∧
     spaceSel (pageWrap mid s p).2 = (if p = 0 then 0 else 2)) := by
  simp only [pageWrap, spaceSel]
  rcases mars_ext_read_val_cases s 0xa000 with hv | hv
  · rw [hv]
    simp only [natCast_mod_65536, natCast_mod_65536_not_neg, if_false,
      toNat_natCast_mod_65536]
    rw [land_mod16 _ 2 (by norm_num)]
    rcases mars_select_cases (mars_ext_read s 0xa000).2 p with ⟨hs1, hs2⟩ | ⟨hs1, hs2⟩
    · rw [hs1]
      simp only [show ¬((0 : Int) < 0) by omega, if_false]
      rcases mars_select_cases (mid (mars_select_reg_space (mars_ext_read s 0xa000).2 p).2).2
          (s.ext 0xa000 &&& 2) with ⟨hb1, hb2⟩ | ⟨hb1, hb2⟩
      · rw [hb1]
        simp only [show ¬((0 : Int) < 0) by omega, if_false]
        left
        rw [hb2]
        rcases land_two_cases (s.ext 0xa000) with h | h <;> simp [h]
      · rw [hb1]
        simp only [show ((-1 : Int) < 0) = True by simp, if_true]
        right
        refine ⟨by rw [hb1]; omega, ?_⟩
        rw [hb2, hmid, hs2]
        by_cases hp : p = 0 <;> simp [hp]
    · rw [hs1]
      simp only [show ((-1 : Int) < 0) = True by simp, if_true]
      left
      rw [hs2, mars_ext_read_ext]
  · rw [hv]
    simp only [show ((-1 : Int) < 0) = True by simp, if_true]
    left
    rw [mars_ext_read_ext]

theorem testBit_cNot_true (b i : Nat) (hi : i < 32) (hb : b.testBit i = false) :
    (cNot b).testBit i = true := by
  have hK : (0xffffffff : Nat) = 2 ^ 32 - 1 := by norm_num
  rw [cNot, Nat.testBit_xor, hb, hK, Nat.testBit_two_pow_sub_one]
  simp [hi]

theorem phy_read_ps (s : S) (r : Nat) : (phy_read s r).2.portStatus = s.portStatus := by
  simp only [phy_read, busStep]
  split_ifs <;> rfl

theorem phy_write_ps (s : S) (r v : Nat) : (phy_write s r v).2.portStatus = s.portStatus := by
  simp only [phy_write, busStep]
  split_ifs <;> rfl

theorem mars_ext_read_ps (s : S) (r : Nat) :
    (mars_ext_read s r).2.portStatus = s.portStatus := by
  simp only [mars_ext_read]
  split_ifs <;> simp [phy_read_ps, phy_write_ps]

theorem mars_ext_write_ps (s : S) (r v : Nat) :
    (mars_ext_write s r v).2.portStatus = s.portStatus := by
  simp only [mars_ext_write]
  split_ifs <;> simp [phy_write_ps]

theorem mars_select_ps (s : S) (sp : Nat) :
    (mars_select_reg_space s sp).2.portStatus = s.portStatus := by
  simp only [mars_select_reg_space]
  split_ifs <;> simp [mars_ext_write_ps]

theorem mars_page_read_ps (s : S) (p r : Nat) :
    (mars_page_read s p r).2.portStatus = s.portStatus := by
  simp only [mars_page_read]
  split_ifs <;> simp [mars_ext_read_ps, mars_select_ps, phy_read_ps]

theorem mars_update_link_fiber_ps (t : S) :
    (mars_update_link_fiber t).2.portStatus = 1 ∨
    (mars_update_link_fiber t).2.portStatus = t.portStatus := by
  simp only [mars_update_link_fiber]
  split_ifs <;> simp [mars_page_read_ps, mars_select_ps]

theorem mars_update_link_fiber_ps_or (t : S) (x : Nat) (hx : t.portStatus = x) :
    (mars_update_link_fiber t).2.portStatus = 0 ∨
    (mars_update_link_fiber t).2.portStatus = 1 ∨
    (mars_update_link_fiber t).2.portStatus = x := by
  rcases mars_update_link_fiber_ps t with h | h
  · exact Or.inr (Or.inl h)
  · exact Or.inr (Or.inr (hx ▸ h))

theorem mars_update_link_ps (s : S) :
    (mars_update_link s).2.portStatus = 0 ∨ (mars_update_link s).2.portStatus = 1 ∨
    (mars_update_link s).2.portStatus = s.portStatus := by
  simp only [mars_update_link]
  split_ifs
  all_goals
    first
      | exact mars_update_link_fiber_ps_or _ _ rfl
      | exact mars_update_link_fiber_ps_or _ _ (by simp [mars_page_read_ps])
      | simp [mars_page_read_ps, mars_select_ps]

theorem mars_get_port_type_ps (s : S) :
    (mars_get_port_type s).2.portStatus = 0 ∨ (mars_get_port_type s).2.portStatus = 1 ∨
    (mars_get_port_type s).2.portStatus = s.portStatus := by
  simp only [mars_get_port_type]
  split_ifs <;> simp [mars_ext_read_ps]

/-- C3: `mars_get_port_type` masks the low 3 bits of the configuration
register value and classifies {0,3} as COPPER (0), {1,4,5} as FIBER (1),
anything else as COMBO (2); for COPPER and FIBER it pre-seeds the active
medium (`g_port_status`) to the same value, for COMBO it leaves the
active medium untouched. -/
theorem get_port_type_classification (s : S) (hf : ∀ n, s.oracle n = true) :
    (mars_get_port_type s).1 = 0 ∧
    (mars_get_port_type s).2.portType =
      (if s.ext 0xa001 &&& 7 = 0 ∨ s.ext 0xa001 &&& 7 = 3 then 0
       else if s.ext 0xa001 &&& 7 = 1 ∨ s.ext 0xa001 &&& 7 = 4 ∨ s.ext 0xa001 &&& 7 = 5 then 1
       else 2) ∧
    (mars_get_port_type s).2.portStatus =
      (if s.ext 0xa001 &&& 7 = 0 ∨ s.ext 0xa001 &&& 7 = 3 then 0
       else if s.ext 0xa001 &&& 7 = 1 ∨ s.ext 0xa001 &&& 7 = 4 ∨ s.ext 0xa001 &&& 7 = 5 then 1
       else s.portStatus) := by
  simp [mars_get_port_type, mars_ext_read_nf _ _ hf, land_mod16 _ 7 (by norm_num)]
  split_ifs <;> simp_all

theorem get_port_type_classification_witness :
    (mars_get_port_type s3).1 = 0 ∧ (mars_get_port_type s3).2.portType = 1 ∧
    (mars_get_port_type s3).2.portStatus = 1 := by
  have h := get_port_type_classification s3 (fun _ => rfl)
  simpa [s3, base] using h

/-- C4: on a COMBO port whose copper BMSR reports link-up,
`mars_update_link` returns 0 with Active Media = COPPER (0), the PHY
(primary) space selected, and the link flag set, for every content of the
fiber status registers — so when both media are up, copper wins. -/
theorem update_link_combo_copper_precedence (s : S) (hf : ∀ n, s.oracle n = true)
    (hpt : s.portType = 2) (hup : s.regs 0 1 &&& 4 ≠ 0) :
    (mars_update_link s).1 = 0 ∧ (mars_update_link s).2.link = 1 ∧
    (mars_update_link s).2.portStatus = 0 ∧ (mars_update_link s).2.ext 0xa000 = 0 := by
  simp [mars_update_link, mars_page_read_nf, mars_select_reg_space_nf, hf, hpt,
    land_mod16 _ 4 (by norm_num), hup]

theorem update_link_combo_copper_precedence_witness :
    (mars_update_link s4).1 = 0 ∧ (mars_update_link s4).2.link = 1 ∧
    (mars_update_link s4).2.portStatus = 0 ∧ (mars_update_link s4).2.ext 0xa000 = 0 ∧
    s4.regs 1 1 &&& 4 ≠ 0 := by
  have h := update_link_combo_copper_precedence s4 (fun _ => rfl) rfl (by decide)
  exact ⟨h.1, h.2.1, h.2.2.1, h.2.2.2, by decide⟩

/-- C9: `mars_get_wol` always reports magic-packet support (0x20); it
reports WOL enabled (wolopts = 0x20) exactly when the read of the WOL
config register succeeds and the enable bit 0x8 is set in the value read,
and reports disabled (wolopts = 0) when the read fails — a bus error is
never propagated. -/
theorem get_wol_swallows_errors (s : S) (w : WolInfo) :
    (mars_get_wol s w).1.supported = 0x20 ∧
    (mars_get_wol s w).1.wolopts =
      (if (mars_ext_read s 0xa00a).1 < 0 then 0
       else if (mars_ext_read s 0xa00a).1.toNat &&& 0x8 ≠ 0 then 0x20 else 0) := by
  simp only [mars_get_wol]
  split_ifs <;> simp_all

/-- C7: the earlier revision's restore step `select_space(oldpage & 0x1)`
and the later revision's `select_space(oldpage & 0x2)` are not
equivalent: for prior page-register value 0x2 (SECONDARY selected) the
former selects the PHY space (writes 0x0) and the latter the SerDes
space (writes 0x2). -/
theorem restore_masks_inequivalent :
    s7.ext 0xa000 = 2 ∧
    (mars_select_reg_space s7 (2 &&& 0x1)).2.ext 0xa000 = 0 ∧
    (mars_select_reg_space s7 (2 &&& 0x2)).2.ext 0xa000 = 2 ∧
    spaceSel (mars_select_reg_space s7 (2 &&& 0x1)).2 ≠
      spaceSel (mars_select_reg_space s7 (2 &&& 0x2)).2 := by
  decide

/-- C8: `mars_set_wol` with magic-packet enable writes the attached
device's hardware address AA:BB:CC:DD:EE:FF as 0xAABB into register
0xa007, 0xCCDD into 0xa008 and 0xEEFF into 0xa009 — two consecutive
address bytes per register, earlier byte in the high-order position. -/
theorem set_wol_magic_mac_packing (s : S) (hf : ∀ n, s.oracle n = true)
    (h0 : s.devAddr 0 = 0xAA) (h1 : s.devAddr 1 = 0xBB) (h2 : s.devAddr 2 = 0xCC)
    (h3 : s.devAddr 3 = 0xDD) (h4 : s.devAddr 4 = 0xEE) (h5 : s.devAddr 5 = 0xFF) :
    (mars_set_wol s 0x20).1 = 0 ∧
    (mars_set_wol s 0x20).2.ext 0xa007 = 0xAABB ∧
    (mars_set_wol s 0x20).2.ext 0xa008 = 0xCCDD ∧
    (mars_set_wol s 0x20).2.ext 0xa009 = 0xEEFF := by
  simp [mars_set_wol, mars_wol_en_cfg, mars_page_read_nf, mars_page_write_nf,
    mars_ext_read_nf, mars_ext_write_nf, hf, h0, h1, h2, h3, h4, h5, intToU16_ofNat]

theorem set_wol_magic_mac_packing_witness :
    (mars_set_wol s8 0x20).1 = 0 ∧
    (mars_set_wol s8 0x20).2.ext 0xa007 = 0xAABB ∧
    (mars_set_wol s8 0x20).2.ext 0xa008 = 0xCCDD ∧
    (mars_set_wol s8 0x20).2.ext 0xa009 = 0xEEFF :=
  set_wol_magic_mac_packing s8 (fun _ => rfl) rfl rfl rfl rfl rfl rfl

/-- C10: the active-media variable `g_port_status` only ever holds
COPPER (0) or FIBER (1), never COMBO: both writers
(`mars_get_port_type`, `mars_update_link`) preserve the invariant on
every path, even with bus faults, and under the invariant the page
selection of `mars_read_status` (SerDes iff `g_port_status` is truthy)
equals the recorded medium. -/
theorem port_status_invariant (s : S) (hs : s.portStatus = 0 ∨ s.portStatus = 1) :
    ((mars_get_port_type s).2.portStatus = 0 ∨ (mars_get_port_type s).2.portStatus = 1) ∧
    ((mars_update_link s).2.portStatus = 0 ∨ (mars_update_link s).2.portStatus = 1) ∧
    ((if (mars_update_link s).2.portStatus ≠ 0 then 1 else 0) =
      (mars_update_link s).2.portStatus) := by
  have hg := mars_get_port_type_ps s
  have hu := mars_update_link_ps s
  have h2 : (mars_update_link s).2.portStatus = 0 ∨ (mars_update_link s).2.portStatus = 1 := by
    rcases hu with h | h | h
    · exact Or.inl h
    · exact Or.inr h
    · rw [h]; exact hs
  refine ⟨?_, h2, ?_⟩
  · rcases hg with h | h | h
    · exact Or.inl h
    · exact Or.inr h
    · rw [h]; exact hs
  · rcases h2 with h | h <;> rw [h] <;> simp

theorem port_status_invariant_witness :
    ((mars_get_port_type base).2.portStatus = 0 ∨ (mars_get_port_type base).2.portStatus = 1) ∧
    ((mars_update_link base).2.portStatus = 0 ∨ (mars_update_link base).2.portStatus = 1) ∧
    ((if (mars_update_link base).2.portStatus ≠ 0 then 1 else 0) =
      (mars_update_link base).2.portStatus) :=
  port_status_invariant base (Or.inl rfl)

/-- C1 (amended): for the three later-revision page operations
(`mars_page_read`, `mars_page_write`, `mars_page_ext_write`, operating on
a register other than the indirect data register and, for the extended
write, other than the page register itself), on every exit path either
the selected register space after the call equals the space selected
before it — in particular on every successful run and on every error
path occurring before or inside the inner operation — or the call
reports an error and the chip is left in the requested target space,
which happens only when the final restoring write itself fails.  (The
early revision's `mars_set_wol`, which the original claim also covered,
does not restore the space: see the counterexample.) -/
theorem space_restore_page_ops (s : S) (p r v : Nat)
    (hw : r ≠ 0x1f) (he : r % 65536 ≠ 0xa000) :
    (spaceSel (mars_page_read s p r).2 = spaceSel s ∨
      ((mars_page_read s p r).1 < 0 ∧
       spaceSel (mars_page_read s p r).2 = (if p = 0 then 0 else 2))) ∧
    (spaceSel (mars_page_write s p r v).2 = spaceSel s ∨
      ((mars_page_write s p r v).1 < 0 ∧
       spaceSel (mars_page_write s p r v).2 = (if p = 0 then 0 else 2))) ∧
    (spaceSel (mars_page_ext_write s p r v).2 = spaceSel s ∨
      ((mars_page_ext_write s p r v).1 < 0 ∧
       spaceSel (mars_page_ext_write s p r v).2 = (if p = 0 then 0 else 2))) := by
  refine ⟨?_, ?_, ?_⟩
  · rw [mars_page_read_as_wrap]
    exact pageWrap_space_clause _ (fun t => phy_read_ext t r 0xa000) s p
  · rw [mars_page_write_as_wrap]
    exact pageWrap_space_clause _ (fun t => phy_write_ext t r v 0xa000 hw) s p
  · rw [mars_page_ext_write_as_wrap]
    exact pageWrap_space_clause _ (fun t => mars_ext_write_ext_at t r v 0xa000 (Ne.symm he)) s p

theorem space_restore_page_ops_witness :
    (spaceSel (mars_page_read base 1 0x11).2 = spaceSel base ∨
      ((mars_page_read base 1 0x11).1 < 0 ∧
       spaceSel (mars_page_read base 1 0x11).2 = (if (1 : Nat) = 0 then 0 else 2))) ∧
    (spaceSel (mars_page_write base 1 0x11 5).2 = spaceSel base ∨
      ((mars_page_write base 1 0x11 5).1 < 0 ∧
       spaceSel (mars_page_write base 1 0x11 5).2 = (if (1 : Nat) = 0 then 0 else 2))) ∧
    (spaceSel (mars_page_ext_write base 1 0x11 5).2 = spaceSel base ∨
      ((mars_page_ext_write base 1 0x11 5).1 < 0 ∧
       spaceSel (mars_page_ext_write base 1 0x11 5).2 = (if (1 : Nat) = 0 then 0 else 2))) :=
  space_restore_page_ops base 1 0x11 5 (by decide) (by decide)

/-- C1 (counterexample): in the earlier revision, `mars_set_wol` entered
with the SECONDARY space selected (page register 0x2) completes without
any bus fault, returns 0, and leaves the PHY space selected — the
selected space is not restored, because the restore step masks with 0x1
instead of 0x2. -/
theorem set_wol_rev1_space_not_restored :
    spaceSel cs1 = 2 ∧ (Rev1.mars_set_wol cs1 0).1 = 0 ∧
    spaceSel (Rev1.mars_set_wol cs1 0).2 = 0 := by
  decide

/-- C2 (amended): `mars1s_config_aneg` equals, on every state, the
program reading as follows — for COPPER/COMBO ports, when
autonegotiation is not enabled first perform the forced setup (aborting
on error), then in all cases reconfigure the advertisement and restart
autonegotiation exactly when the advertisement changed or the chip
reports autonegotiation disabled or the isolate bit set; afterwards, for
FIBER/COMBO ports, when autonegotiation is not enabled perform the
forced setup and return immediately, otherwise restart autonegotiation. -/
theorem config_aneg_utp_eq (s : S) :
    mars1s_config_aneg_utp s = mars1s_config_aneg_spec_utp s := by
  simp only [mars1s_config_aneg_utp, mars1s_config_aneg_spec_utp]
  split_ifs <;> first | rfl | omega

theorem config_aneg_matches_spec (s : S) :
    mars1s_config_aneg s = mars1s_config_aneg_spec s := by
  simp only [mars1s_config_aneg, mars1s_config_aneg_spec, config_aneg_utp_eq]

/-- C2 (counterexample): on a COPPER port with autonegotiation disabled,
`mars1s_config_aneg` is not just the forced setup: it also rewrites the
advertisement register (here from 0x20 to 0) and restarts
autonegotiation (BMCR ends with ANENABLE|ANRESTART = 0x1200 set), while
the forced setup alone leaves the advertisement untouched and ANENABLE
clear. -/
theorem config_aneg_forced_touches_advert :
    csC2.autoneg ≠ 1 ∧
    (mars1s_config_aneg csC2).2.regs 0 4 = 0 ∧
    (mars_setup_forced csC2).2.regs 0 4 = 0x20 ∧
    (mars1s_config_aneg csC2).2.regs 0 0 = 0x1200 ∧
    (mars_setup_forced csC2).2.regs 0 0 = 0 := by
  decide

/-- C5: after a successful link update, `mars_read_status` defaults speed
to 10, duplex to half (0) and both pause flags to 0, then decodes the
chip status register of the active-media page: bit 15 set gives speed
1000 and full duplex regardless of bit 13; otherwise bit 14 set gives
speed 100 with full duplex exactly when bit 13 is set; otherwise bit 13
set gives full duplex; and the pause/asym-pause flags come from the
link-partner-ability register only when the decoded duplex is full. -/
theorem read_status_decode (s : S) (hf : ∀ n, s.oracle n = true) :
    (mars_read_status s).1 = 0 ∧
    ((mars_read_status s).2.speed, (mars_read_status s).2.duplex,
     (mars_read_status s).2.pause, (mars_read_status s).2.asymPause) =
      (let pg : Nat := if (mars_update_link s).2.portStatus ≠ 0 then 1 else 0
       let v := s.regs pg 0x11
       let lp := s.regs pg 5
       let dup : Nat :=
         if v &&& 0x8000 ≠ 0 then 1
         else if v &&& 0x4000 ≠ 0 then (if v &&& 0x2000 ≠ 0 then 1 else 0)
         else if v &&& 0x2000 ≠ 0 then 1 else 0
       ((if v &&& 0x8000 ≠ 0 then 1000 else if v &&& 0x4000 ≠ 0 then 100 else 10 : Nat),
        dup,
        (if dup = 1 then (if lp &&& 0x400 ≠ 0 then 1 else 0) else 0 : Nat),
        (if dup = 1 then (if lp &&& 0x800 ≠ 0 then 1 else 0) else 0 : Nat))) := by
  obtain ⟨h1, c, l0, e0, ps, lk, h2⟩ := mars_update_link_nf s hf
  simp [mars_read_status, h1, h2, mars_page_read_nf, hf,
    land_mod16 _ 32768 (by norm_num), land_mod16 _ 16384 (by norm_num),
    land_mod16 _ 8192 (by norm_num), land_mod16 _ 1024 (by norm_num),
    land_mod16 _ 2048 (by norm_num)]
  split_ifs <;> simp_all

theorem read_status_decode_witness :
    (mars_read_status s5).1 = 0 ∧
    ((mars_read_status s5).2.speed, (mars_read_status s5).2.duplex,
     (mars_read_status s5).2.pause, (mars_read_status s5).2.asymPause) = (1000, 1, 0, 0) := by
  have h := read_status_decode s5 (fun _ => rfl)
  refine ⟨h.1, ?_⟩
  rw [h.2]
  decide

/-- C6 (amended): `mars_wol_en_cfg` reads the current WOL config register
value and rewrites only WOL-related bits according to the new
configuration (it does not first clear them all: see the counterexample
— e.g. when disabling it clears only the enable and interrupt-select
bits), and it leaves every bit of the register outside the WOL-related
bits 0/1/2/3/6 unchanged from the value read. -/
theorem wol_en_cfg_preserves_other_bits (s : S) (cfg : MarsWolCfg) (i : Nat)
    (hf : ∀ n, s.oracle n = true) (hlt : s.ext 0xa00a < 65536)
    (hi0 : i ≠ 0) (hi1 : i ≠ 1) (hi2 : i ≠ 2) (hi3 : i ≠ 3) (hi6 : i ≠ 6) :
    (mars_wol_en_cfg s cfg).1 = 0 ∧
    ((mars_wol_en_cfg s cfg).2.ext 0xa00a).testBit i = (s.ext 0xa00a).testBit i := by
  have hb1 : Nat.testBit 0x1 i = false := by
    have h : (0x1 : Nat) = 2 ^ 0 := by norm_num
    rw [h]; exact Nat.testBit_two_pow_of_ne (Ne.symm hi0)
  have hb2 : Nat.testBit 0x2 i = false := by
    have h : (0x2 : Nat) = 2 ^ 1 := by norm_num
    rw [h]; exact Nat.testBit_two_pow_of_ne (Ne.symm hi1)
  have hb4 : Nat.testBit 0x4 i = false := by
    have h : (0x4 : Nat) = 2 ^ 2 := by norm_num
    rw [h]; exact Nat.testBit_two_pow_of_ne (Ne.symm hi2)
  have hb8 : Nat.testBit 0x8 i = false := by
    have h : (0x8 : Nat) = 2 ^ 3 := by norm_num
    rw [h]; exact Nat.testBit_two_pow_of_ne (Ne.symm hi3)
  have hb40 : Nat.testBit 0x40 i = false := by
    have h : (0x40 : Nat) = 2 ^ 6 := by norm_num
    rw [h]; exact Nat.testBit_two_pow_of_ne (Ne.symm hi6)
  have h16 : (65536 : Nat) = 2 ^ 16 := by norm_num
  have hofl : ¬ i < 16 → (s.ext 0xa00a).testBit i = false := by
    intro hgt
    apply Nat.testBit_lt_two_pow
    calc s.ext 0xa00a < 65536 := hlt
      _ = 2 ^ 16 := h16
      _ ≤ 2 ^ i := Nat.pow_le_pow_right (by norm_num) (by omega)
  constructor
  · simp [mars_wol_en_cfg, mars_ext_read_nf _ _ hf, mars_ext_write_nf, hf]
  · simp [mars_wol_en_cfg, mars_ext_read_nf _ _ hf, mars_ext_write_nf, hf,
      Nat.mod_eq_of_lt hlt]
    by_cases hilt : i < 16
    · have hi32 : i < 32 := by omega
      split_ifs <;>
        · rw [h16, Nat.testBit_mod_two_pow]
          simp [hilt, hi32, hb1, hb2, hb4, hb8, hb40, testBit_cNot_true]
    · have ho := hofl hilt
      split_ifs <;>
        · rw [h16, Nat.testBit_mod_two_pow]
          simp [hilt, ho]

theorem wol_en_cfg_preserves_other_bits_witness :
    (mars_wol_en_cfg s6 ⟨1, 1, 3⟩).1 = 0 ∧
    ((mars_wol_en_cfg s6 ⟨1, 1, 3⟩).2.ext 0xa00a).testBit 7 = (s6.ext 0xa00a).testBit 7 :=
  wol_en_cfg_preserves_other_bits s6 ⟨1, 1, 3⟩ 7 (fun _ => rfl) (by decide)
    (by decide) (by decide) (by decide) (by decide) (by decide)

/-- C6 (counterexample): the claim's clear-all-then-re-set reading would
turn a register reading 0x1 into 0x0 under a disable configuration
(enable 0, type MAX = 2, width MAX = 4, exactly what `mars_set_wol`
passes when disabling), but the code writes back 0x1 — the TYPE bit is
not cleared. -/
theorem wol_en_cfg_not_clear_then_set :
    s6.ext 0xa00a = 1 ∧
    (mars_wol_en_cfg s6 ⟨0, 2, 4⟩).2.ext 0xa00a = 1 ∧
    mars_wol_en_cfg_claimed (s6.ext 0xa00a) ⟨0, 2, 4⟩ = 0 := by
  decide
